import Mathlib

/-!
Verification development for the `nano-banana-pro` utility
(`src/02-nanopro.py`), a CLI wrapper around a generative-image API.
Strings are modelled as `List Char`; the filesystem, the upstream API and
timestamps are explicit parameters of the embedded run functions.
-/

namespace NanoPro

/-- ASCII whitespace as recognised by Python's `str.strip()` (the project-file
contents handled by `_load_config` are plain ASCII text). -/
def isSpaceChar (c : Char) : Bool :=
  c = ' ' ∨ c = '\t' ∨ c = '\n' ∨ c = '\r' ∨ c = Char.ofNat 11 ∨ c = Char.ofNat 12

/-- Python `s.strip()`: drop leading and trailing whitespace. -/
def pyStrip (s : List Char) : List Char :=
  ((s.dropWhile isSpaceChar).reverse.dropWhile isSpaceChar).reverse

/-- `PurePath.name`: the final path component, i.e. the text after the last
`/` of the path string. -/
def pathName (s : List Char) : List Char :=
  (s.reverse.takeWhile (fun c => c ≠ '/')).reverse

/-- `str.rfind(c)`: index of the last occurrence of `c`, `none` if absent. -/
def rfindIdx (c : Char) (s : List Char) : Option Nat :=
  match s.reverse.findIdx? (fun d => d = c) with
  | none => none
  | some k => some (s.length - 1 - k)

/-- `PurePath.suffix`: the extension of the final component.  CPython returns
`name[i:]` for `i = name.rfind('.')` when `0 < i < len(name) - 1`, and the
empty string otherwise. -/
def pySuffix (s : List Char) : List Char :=
  match rfindIdx '.' (pathName s) with
  | none => []
  | some i =>
      if 0 < i ∧ i < (pathName s).length - 1 then (pathName s).drop i else []

/-- `NanoBananoPro.generate`, lines 117-120: when a custom output filename is
used, `output_path.with_suffix('.jpg')` is applied iff the path has no
suffix; with an empty old suffix `with_suffix` appends the new one. -/
def resolveGenerateName (f : List Char) : List Char :=
  if pySuffix f = [] then f ++ ".jpg".toList else f

/-- `NanoBananoPro.edit_image`, lines 174-178: same resolution but the
appended suffix is `.png`. -/
def resolveEditName (f : List Char) : List Char :=
  if pySuffix f = [] then f ++ ".png".toList else f

/-- Decimal rendering of a natural number, as Python's `f"{i+1}"` produces
for the per-image index. -/
def natDecimal (n : Nat) : List Char :=
  Nat.toDigits 10 n

/-- `generate`, lines 122-124: the timestamp-derived filename
`f"nano_{timestamp}{suffix}.jpg"`, where `suffix = f"_{i+1}"` iff more than
one image was requested.  The timestamp is taken per loop iteration, so it
is a function of the image index `i`. -/
def nanoTimestampPath (nimg : Nat) (ts : Nat → List Char) (i : Nat) : List Char :=
  "nano_".toList ++ ts i ++
    (if nimg > 1 then '_' :: natDecimal (i + 1) else []) ++ ".jpg".toList

/-- Python truthiness of an optional string argument: `None` and the empty
string are falsy. -/
def truthyStr : Option (List Char) → Bool
  | some (_ :: _) => true
  | _ => false

/-- `generate`, lines 116-124: the output path chosen for the `i`-th saved
image (`if output_filename and num_images == 1` selects the custom name,
resolved by `resolveGenerateName`; otherwise the timestamp pattern). -/
def genOutputPath (fname : Option (List Char)) (nimg : Nat) (ts : Nat → List Char)
    (i : Nat) : List Char :=
  if truthyStr fname ∧ nimg = 1 then
    resolveGenerateName (fname.getD [])
  else
    nanoTimestampPath nimg ts i

/-- `edit_image`, lines 174-181: output path for the edited image
(`if output_filename:` truthiness, then `.png` resolution, else the
timestamped `nano_edited_{timestamp}.png` name). -/
def editOutputPath (fname : Option (List Char)) (tsE : List Char) : List Char :=
  if truthyStr fname then resolveEditName (fname.getD [])
  else "nano_edited_".toList ++ tsE ++ ".png".toList

/-- The filesystem as the program sees it: the contents of the two fixed
home-directory files (`none` = file absent) and an existence test for
arbitrary paths (used for the edit-mode input image). -/
structure FSState where
  projectFile : Option (List Char)
  keyFile : Option (List Char)
  fileExists : List Char → Bool

/-- The remediation hint printed by `_load_config` when the project file is
missing (line 51). -/
def remediationHint : List Char := "Run: ./01-apikey.sh setup".toList

/-- `NanoBananoPro._load_config`, lines 47-59: missing project file prints an
error plus the remediation hint and exits 1; contents are `strip`ped and an
empty result prints an error and exits 1; otherwise the project id is
returned.  The value is the exit code paired with the printed lines on
failure. -/
def loadConfig (fs : FSState) : Except (Nat × List (List Char)) (List Char) :=
  match fs.projectFile with
  | none =>
      .error (1, ["No project configuration found!".toList, remediationHint])
  | some s =>
      let pid := pyStrip s
      if pid = [] then .error (1, ["Project file is empty!".toList])
      else .ok pid

/-- Observable side effects of a run: one upstream API call, or one write of
an output file at the given path. -/
inductive Ev where
  | apiCall : Ev
  | fileWrite : List Char → Ev
deriving DecidableEq

def isWrite : Ev → Bool
  | Ev.fileWrite _ => true
  | Ev.apiCall => false

def countWrites (t : List Ev) : Nat := (t.filter isWrite).length

def countApiCalls (t : List Ev) : Nat := (t.filter (fun e => e = Ev.apiCall)).length

/-- `generate`, lines 115-127: the save loop over the `k` returned images,
starting at index `i`.  `saveFail i = true` models `image.save` raising on
a malformed payload at index `i`; the `except` handler (lines 147-151)
prints the error and calls `sys.exit(1)`.  Result: `some c` = process exit
with code `c` inside the method, `none` = the method returns to its caller;
paired with the file writes performed. -/
def saveLoop (fname : Option (List Char)) (nimg : Nat) (ts : Nat → List Char)
    (saveFail : Nat → Bool) : Nat → Nat → Option Nat × List Ev
  | _, 0 => (none, [])
  | i, k + 1 =>
      if saveFail i then (some 1, [])
      else
        let r := saveLoop fname nimg ts saveFail (i + 1) k
        (r.1, Ev.fileWrite (genOutputPath fname nimg ts i) :: r.2)

/-- `generate`, lines 92-151: one `generate_images` API call; on an API
exception the handler exits the process with code 1; otherwise each of the
`k` returned images is saved in turn. -/
def generateRun (fname : Option (List Char)) (nimg : Nat) (ts : Nat → List Char)
    (api : Except Unit Nat) (saveFail : Nat → Bool) : Option Nat × List Ev :=
  match api with
  | .error _ => (some 1, [Ev.apiCall])
  | .ok k =>
      let r := saveLoop fname nimg ts saveFail 0 k
      (r.1, Ev.apiCall :: r.2)

/-- `edit_image`, lines 153-235: a missing input image exits 1 before any
API call; otherwise one `edit_image` API call is made and the single result
saved; any exception in the `try` block exits the process with code 1. -/
def editRun (fs : FSState) (imgPath : List Char) (fname : Option (List Char))
    (tsE : List Char) (api : Except Unit Unit) (saveFailE : Bool) :
    Option Nat × List Ev :=
  if fs.fileExists imgPath = false then (some 1, [])
  else
    match api with
    | .error _ => (some 1, [Ev.apiCall])
    | .ok _ =>
        if saveFailE then (some 1, [Ev.apiCall])
        else (none, [Ev.apiCall, Ev.fileWrite (editOutputPath fname tsE)])

/-- Which branch of `main` (lines 340-366) runs. -/
inductive Action where
  | doGenerate : Action
  | doEdit : Action
  | helpExit : Action
deriving DecidableEq

/-- `main`, lines 340-366: `if args.prompt: ... elif args.edit: ... else:
print help; sys.exit(1)` — `args.prompt` is tested by Python truthiness,
`args.edit` is either absent or a two-element list (always truthy). -/
def dispatch (prompt : Option (List Char)) (edit : Option (List Char × List Char)) :
    Action :=
  if truthyStr prompt then Action.doGenerate
  else
    match edit with
    | some _ => Action.doEdit
    | none => Action.helpExit

/-- Command-line arguments relevant to the behaviour modelled here. -/
structure Args where
  prompt : Option (List Char)
  edit : Option (List Char × List Char)
  output : Option (List Char)
  numImages : Nat

/-- A whole invocation, `main` (lines 243-366): load the configuration
(object construction, exiting on config errors), then dispatch on the
arguments.  `api`, `editApi`, `ts`, `tsE` and the save-failure oracles
stand for the upstream service, the clock and the image payloads.  Result:
final process exit code paired with the event trace (a method returning
normally lets `main` finish, exit code 0). -/
def runProgram (fs : FSState) (args : Args) (api : Except Unit Nat)
    (editApi : Except Unit Unit) (ts : Nat → List Char) (tsE : List Char)
    (saveFail : Nat → Bool) (saveFailE : Bool) : Nat × List Ev :=
  match loadConfig fs with
  | .error e => (e.1, [])
  | .ok _ =>
      match dispatch args.prompt args.edit with
      | Action.doGenerate =>
          let r := generateRun args.output args.numImages ts api saveFail
          (r.1.getD 0, r.2)
      | Action.doEdit =>
          match args.edit with
          | some (img, _) =>
              let r := editRun fs img args.output tsE editApi saveFailE
              (r.1.getD 0, r.2)
          | none => (1, [])
      | Action.helpExit => (1, [])

/-- Modelled from the spec: the Output Writer's pixel-level behaviour when
encoding to the lossy format is not in `src/` (it lives in another revision
of the script; `src/02-nanopro.py` delegates saving to the SDK).  Colour
modes per the spec: the alpha-capable lossless mode, an alpha mode and a
palette mode whose alpha is derived after palette expansion. -/
inductive Mode where
  | RGB : Mode
  | RGBA : Mode
  | P : Mode
deriving DecidableEq

/-- Modelled from the spec: one pixel with 8-bit channels; for palette-mode
images the channels are the post-expansion values and `a` the derived
alpha. -/
structure Pix where
  r : Nat
  g : Nat
  b : Nat
  a : Nat
deriving DecidableEq

/-- Modelled from the spec: an in-memory image payload. -/
structure Img where
  mode : Mode
  pixels : List Pix

def whitePix : Pix := ⟨255, 255, 255, 255⟩

/-- Modelled from the spec: compositing one source pixel onto an opaque
white canvas using the source's own alpha as the blend mask. -/
def compositeWhite (p : Pix) : Pix :=
  ⟨(p.r * p.a + 255 * (255 - p.a)) / 255,
   (p.g * p.a + 255 * (255 - p.a)) / 255,
   (p.b * p.a + 255 * (255 - p.a)) / 255,
   255⟩

/-- Modelled from the spec: the Output Writer's encoding step for the lossy
no-alpha format — if the source mode includes an alpha or palette channel,
composite onto a white canvas first; the written payload is always in the
no-alpha `RGB` mode. -/
def saveAsJpg (img : Img) : Img :=
  if img.mode = Mode.RGBA ∨ img.mode = Mode.P then
    ⟨Mode.RGB, img.pixels.map compositeWhite⟩
  else
    ⟨Mode.RGB, img.pixels⟩

/-- Modelled from the spec: a directory entry as seen by list mode (list
mode is not in `src/02-nanopro.py`; it lives in another revision of the
script): a name and a modification time. -/
structure DirEntry where
  name : List Char
  mtime : Nat

/-- Descending-by-modification-time order on directory entries. -/
def mtimeDesc (a b : DirEntry) : Prop := b.mtime ≤ a.mtime

instance : DecidableRel mtimeDesc := fun a b => Nat.decLe b.mtime a.mtime

instance : IsTotal DirEntry mtimeDesc :=
  ⟨fun a b => (Nat.le_total b.mtime a.mtime).imp id id⟩

instance : IsTrans DirEntry mtimeDesc :=
  ⟨fun _ _ _ h1 h2 => Nat.le_trans h2 h1⟩

/-- Modelled from the spec: list mode is a directory scan sorted descending
by modification time and truncated to the requested count. -/
def listRecent (entries : List DirEntry) (limit : Nat) : List DirEntry :=
  (List.insertionSort mtimeDesc entries).take limit

/-! ## Helper lemmas -/

theorem loadConfig_error_code (fs : FSState) (e : Nat × List (List Char))
    (h : loadConfig fs = Except.error e) : e.1 = 1 := by
  unfold loadConfig at h
  cases hp : fs.projectFile with
  | none =>
      rw [hp] at h
      cases h
      rfl
  | some s =>
      rw [hp] at h
      by_cases hs : pyStrip s = []
      · simp only [hs, if_pos] at h
        cases h
        rfl
      · simp [hs] at h

/-! ## Claims -/

/-- C1, counterexample: the claim says both operations append the lossless
`.png` extension to an extensionless destination, so `"out"` would resolve
to `"out.png"`; but `generate` (line 120) uses `with_suffix('.jpg')`, so in
`generate` the destination `"out"` resolves to `"out.jpg"`, not
`"out.png"`. -/
theorem generate_appends_jpg_not_png :
    resolveGenerateName "out".toList = "out.jpg".toList ∧
    resolveGenerateName "out".toList ≠ "out.png".toList := by
  constructor <;> decide

/-- C1 (amended): for every output filename whose path has no extension,
`generate` appends the lossy `.jpg` extension while `edit_image` appends
the lossless `.png` extension; destination `"out"` resolves to `"out.jpg"`
under `generate` and to `"out.png"` under `edit_image`. -/
theorem extension_defaults_per_operation (f : List Char) (h : pySuffix f = []) :
    resolveGenerateName f = f ++ ".jpg".toList ∧
    resolveEditName f = f ++ ".png".toList := by
  constructor
  · simp [resolveGenerateName, h]
  · simp [resolveEditName, h]

/-- C1 witness: the amended claim at the spec's own scenario input
`"out"`. -/
theorem extension_defaults_per_operation_witness :
    pySuffix "out".toList = [] ∧
    (resolveGenerateName "out".toList = "out".toList ++ ".jpg".toList ∧
     resolveEditName "out".toList = "out".toList ++ ".png".toList) :=
  ⟨by decide, extension_defaults_per_operation "out".toList (by decide)⟩

/-- C2: saving to the lossy `.jpg` format an image whose mode carries an
alpha or palette channel composites it onto an opaque white canvas, so the
written payload has no alpha channel (mode `RGB`) and every
fully-transparent source pixel comes out pure white. -/
theorem lossy_save_composites_on_white (img : Img) (i : Nat) (p : Pix)
    (hmode : img.mode = Mode.RGBA ∨ img.mode = Mode.P)
    (hp : img.pixels[i]? = some p) (ha : p.a = 0) :
    (saveAsJpg img).mode = Mode.RGB ∧
    (saveAsJpg img).pixels[i]? = some whitePix := by
  constructor
  · unfold saveAsJpg
    split <;> rfl
  · have hif : (img.mode = Mode.RGBA ∨ img.mode = Mode.P) := hmode
    simp only [saveAsJpg, if_pos hif]
    rw [List.getElem?_map, hp]
    simp [compositeWhite, ha, whitePix]

/-- C2 witness: a one-pixel `RGBA` image whose pixel is fully transparent
(and has garbage colour data) is written as an opaque white `RGB` pixel. -/
theorem lossy_save_composites_on_white_witness :
    ((Img.mk Mode.RGBA [⟨12, 34, 56, 0⟩]).mode = Mode.RGBA ∨
      (Img.mk Mode.RGBA [⟨12, 34, 56, 0⟩]).mode = Mode.P) ∧
    ((saveAsJpg (Img.mk Mode.RGBA [⟨12, 34, 56, 0⟩])).mode = Mode.RGB ∧
     (saveAsJpg (Img.mk Mode.RGBA [⟨12, 34, 56, 0⟩])).pixels[0]? =
       some whitePix) :=
  ⟨Or.inl rfl,
   lossy_save_composites_on_white (Img.mk Mode.RGBA [⟨12, 34, 56, 0⟩]) 0
     ⟨12, 34, 56, 0⟩ (Or.inl rfl) rfl rfl⟩

theorem saveLoop_fail_exits (fname : Option (List Char)) (nimg : Nat)
    (ts : Nat → List Char) (saveFail : Nat → Bool) :
    ∀ k i, (∃ j, j < k ∧ saveFail (i + j) = true) →
      (saveLoop fname nimg ts saveFail i k).1 = some 1 := by
  intro k
  induction k with
  | zero =>
      intro i h
      obtain ⟨j, hj, _⟩ := h
      omega
  | succ k ih =>
      intro i h
      by_cases h0 : saveFail i = true
      · simp [saveLoop, h0]
      · obtain ⟨j, hj, hf⟩ := h
        cases j with
        | zero =>
            simp at hf
            exact absurd hf h0
        | succ j =>
            simp only [saveLoop, h0, Bool.false_eq_true, if_neg, ite_false]
            apply ih (i + 1)
            exact ⟨j, by omega, by rw [show i + 1 + j = i + (j + 1) by omega]; exact hf⟩

/-- C3, counterexample: the claim says a decode/encode failure during
saving is signalled to the caller, returning control rather than
terminating the process; but the handler at lines 147-151 calls
`sys.exit(1)`, so a `generate` run whose single save raises ends the
process with exit code 1 and never returns to its caller. -/
theorem save_failure_terminates_process :
    (generateRun none 1 (fun _ => "20240101_000000".toList) (Except.ok 1)
        (fun _ => true)).1 = some 1 ∧
    (generateRun none 1 (fun _ => "20240101_000000".toList) (Except.ok 1)
        (fun _ => true)).1 ≠ none := by
  constructor <;> decide

/-- C3 (amended): any failure inside the `try` block of `generate` or
`edit_image` — an API exception, or a save failure on a malformed payload
at any index the save loop reaches — makes the method print the error and
exit the whole process with code 1; control never returns to the caller,
so the caller has no say in the exit policy. -/
theorem failure_exits_with_code_one (fname : Option (List Char)) (nimg : Nat)
    (ts : Nat → List Char) (api : Except Unit Nat) (saveFail : Nat → Bool)
    (fs : FSState) (img : List Char) (tsE : List Char)
    (hgen : api = Except.error () ∨
      ∃ k, api = Except.ok k ∧ ∃ j, j < k ∧ saveFail j = true)
    (hex : fs.fileExists img = true) :
    (generateRun fname nimg ts api saveFail).1 = some 1 ∧
    (editRun fs img fname tsE (Except.error ()) false).1 = some 1 ∧
    (editRun fs img fname tsE (Except.ok ()) true).1 = some 1 := by
  refine ⟨?_, ?_, ?_⟩
  · rcases hgen with h | ⟨k, hk, hj⟩
    · simp [generateRun, h]
    · simp only [generateRun, hk]
      exact saveLoop_fail_exits fname nimg ts saveFail k 0 (by simpa using hj)
  · simp [editRun, hex]
  · simp [editRun, hex]

/-- C3 witness: the amended claim at a concrete failing save. -/
theorem failure_exits_with_code_one_witness :
    ((Except.ok 1 : Except Unit Nat) = Except.error () ∨
      ∃ k, (Except.ok 1 : Except Unit Nat) = Except.ok k ∧
        ∃ j, j < k ∧ (fun _ : Nat => true) j = true) ∧
    ((generateRun none 2 (fun _ => "T".toList) (Except.ok 1) (fun _ => true)).1 =
        some 1 ∧
     (editRun ⟨some "p".toList, none, fun _ => true⟩ "in.png".toList none
        "T".toList (Except.error ()) false).1 = some 1 ∧
     (editRun ⟨some "p".toList, none, fun _ => true⟩ "in.png".toList none
        "T".toList (Except.ok ()) true).1 = some 1) :=
  ⟨Or.inr ⟨1, rfl, 0, by decide, rfl⟩,
   failure_exits_with_code_one none 2 (fun _ => "T".toList) (Except.ok 1)
     (fun _ => true) ⟨some "p".toList, none, fun _ => true⟩ "in.png".toList
     "T".toList (Or.inr ⟨1, rfl, 0, by decide, rfl⟩) rfl⟩

/-- Number of images the `generate_images` call returns (0 on an API
exception). -/
def apiImageCount : Except Unit Nat → Nat
  | .ok k => k
  | .error _ => 0

theorem saveLoop_trace_bounds (fname : Option (List Char)) (nimg : Nat)
    (ts : Nat → List Char) (saveFail : Nat → Bool) :
    ∀ k i, countWrites (saveLoop fname nimg ts saveFail i k).2 ≤ k ∧
      countApiCalls (saveLoop fname nimg ts saveFail i k).2 = 0 := by
  intro k
  induction k with
  | zero =>
      intro i
      simp [saveLoop, countWrites, countApiCalls]
  | succ k ih =>
      intro i
      by_cases h0 : saveFail i = true
      · simp [saveLoop, h0, countWrites, countApiCalls]
      · simp only [saveLoop, h0, Bool.false_eq_true, if_neg, ite_false]
        constructor
        · simpa [countWrites, isWrite, List.filter_cons] using
            Nat.succ_le_succ (ih (i + 1)).1
        · simpa [countApiCalls, List.filter_cons] using (ih (i + 1)).2

/-- C4, counterexample: the claim says a single run never writes more than
one output file; but a generation run with `--num-images 2` whose API call
returns two images saves both of them, so its trace holds two file
writes. -/
theorem two_image_run_writes_twice :
    countWrites (runProgram ⟨some "proj".toList, none, fun _ => true⟩
        ⟨some "sunset".toList, none, none, 2⟩ (Except.ok 2) (Except.ok ())
        (fun _ => "20240101_000000".toList) [] (fun _ => false) false).2 = 2 ∧
    ¬ (2 : Nat) ≤ 1 := by
  constructor <;> decide

/-- C4 (amended): every invocation makes at most one outbound API call, and
performs one file write per image the API returned — hence at most
`max(number of returned images, 1)` writes; the single-write guarantee
holds only for single-image requests, not for `--num-images > 1`. -/
theorem at_most_one_api_call_writes_bounded (fs : FSState) (args : Args)
    (api : Except Unit Nat) (editApi : Except Unit Unit) (ts : Nat → List Char)
    (tsE : List Char) (saveFail : Nat → Bool) (saveFailE : Bool) :
    countApiCalls (runProgram fs args api editApi ts tsE saveFail saveFailE).2 ≤ 1 ∧
    countWrites (runProgram fs args api editApi ts tsE saveFail saveFailE).2 ≤
      max (apiImageCount api) 1 := by
  unfold runProgram
  cases hcfg : loadConfig fs with
  | error e => simp [countWrites, countApiCalls]
  | ok pid =>
      cases hd : dispatch args.prompt args.edit with
      | doGenerate =>
          cases hapi : api with
          | error u =>
              simp [generateRun, countWrites, countApiCalls, apiImageCount, isWrite]
          | ok k =>
              have hb := saveLoop_trace_bounds args.output args.numImages ts saveFail k 0
              constructor
              · simpa [generateRun, countApiCalls, List.filter_cons] using
                  Nat.le_of_eq hb.2
              · refine le_trans ?_ (le_max_left (apiImageCount (Except.ok k)) 1)
                simpa [generateRun, countWrites, isWrite, List.filter_cons,
                  apiImageCount] using hb.1
      | doEdit =>
          cases he : args.edit with
          | none => simp [countWrites, countApiCalls]
          | some ip =>
              obtain ⟨img, p⟩ := ip
              by_cases hex : fs.fileExists img = false
              · simp [editRun, hex, countWrites, countApiCalls]
              · cases editApi with
                | error u =>
                    simp [editRun, hex, countWrites, countApiCalls, isWrite]
                | ok u =>
                    by_cases hsf : saveFailE = true
                    · simp [editRun, hex, hsf, countWrites, countApiCalls, isWrite]
                    · constructor
                      · simp [editRun, hex, hsf, countApiCalls, List.filter_cons,
                          isWrite]
                      · refine le_trans ?_ (le_max_right (apiImageCount api) 1)
                        simp [editRun, hex, hsf, countWrites, List.filter_cons,
                          isWrite]
      | helpExit => simp [countWrites, countApiCalls]

/-- C5, counterexample: the claim says an absent *or empty* project file is
reported with a remediation hint; but for an empty project file
`_load_config` (lines 57-59) prints only "Project file is empty!" — the
remediation hint appears only in the absent-file branch (line 51). -/
theorem empty_project_file_has_no_hint :
    loadConfig ⟨some [], none, fun _ => false⟩ =
      Except.error (1, ["Project file is empty!".toList]) ∧
    remediationHint ∉ ["Project file is empty!".toList] := by
  constructor
  · rfl
  · decide

/-- C5 (amended): when the project file is absent or its stripped contents
are empty, the invocation exits immediately with code 1, makes no API call
and writes no file; a user-visible error is printed, carrying the
remediation hint in the absent case but not in the empty case. -/
theorem config_error_exits_without_effects (fs : FSState) (args : Args)
    (api : Except Unit Nat) (editApi : Except Unit Unit) (ts : Nat → List Char)
    (tsE : List Char) (saveFail : Nat → Bool) (saveFailE : Bool)
    (h : fs.projectFile = none ∨ ∃ s, fs.projectFile = some s ∧ pyStrip s = []) :
    runProgram fs args api editApi ts tsE saveFail saveFailE = (1, []) ∧
    (loadConfig fs =
        Except.error (1, ["No project configuration found!".toList, remediationHint]) ∨
      loadConfig fs = Except.error (1, ["Project file is empty!".toList])) := by
  rcases h with h | ⟨s, hs, hstrip⟩
  · constructor
    · simp [runProgram, loadConfig, h]
    · exact Or.inl (by simp [loadConfig, h])
  · constructor
    · simp [runProgram, loadConfig, hs, hstrip]
    · exact Or.inr (by simp [loadConfig, hs, hstrip])

/-- C5 witness: the amended claim at a filesystem with no project file. -/
theorem config_error_exits_without_effects_witness :
    ((FSState.mk none none fun _ => false).projectFile = none ∨
      ∃ s, (FSState.mk none none fun _ => false).projectFile = some s ∧
        pyStrip s = []) ∧
    (runProgram ⟨none, none, fun _ => false⟩ ⟨none, none, none, 1⟩ (Except.ok 1)
        (Except.ok ()) (fun _ => "T".toList) [] (fun _ => false) false = (1, []) ∧
     (loadConfig ⟨none, none, fun _ => false⟩ =
        Except.error (1, ["No project configuration found!".toList, remediationHint]) ∨
      loadConfig ⟨none, none, fun _ => false⟩ =
        Except.error (1, ["Project file is empty!".toList]))) :=
  ⟨Or.inl rfl,
   config_error_exits_without_effects ⟨none, none, fun _ => false⟩
     ⟨none, none, none, 1⟩ (Except.ok 1) (Except.ok ()) (fun _ => "T".toList) []
     (fun _ => false) false (Or.inl rfl)⟩

/-- C6: an edit-mode invocation whose input image path does not exist
reports it and exits with code 1 before any API call or file write (the
existence check at lines 170-172 precedes the `try` block). -/
theorem missing_edit_input_exits_early (fs : FSState) (args : Args)
    (img p : List Char) (api : Except Unit Nat) (editApi : Except Unit Unit)
    (ts : Nat → List Char) (tsE : List Char) (saveFail : Nat → Bool)
    (saveFailE : Bool) (hp : truthyStr args.prompt = false)
    (he : args.edit = some (img, p)) (hex : fs.fileExists img = false) :
    runProgram fs args api editApi ts tsE saveFail saveFailE = (1, []) := by
  unfold runProgram
  cases hcfg : loadConfig fs with
  | error e =>
      simp [loadConfig_error_code fs e hcfg]
  | ok pid =>
      simp [dispatch, hp, he, editRun, hex]

/-- C6 witness: concrete invocation `--edit missing.png "x"` on a
filesystem where no such file exists. -/
theorem missing_edit_input_exits_early_witness :
    truthyStr (none : Option (List Char)) = false ∧
    runProgram ⟨some "proj".toList, none, fun _ => false⟩
      ⟨none, some ("missing.png".toList, "x".toList), none, 1⟩ (Except.ok 1)
      (Except.ok ()) (fun _ => "T".toList) [] (fun _ => false) false = (1, []) :=
  ⟨rfl,
   missing_edit_input_exits_early ⟨some "proj".toList, none, fun _ => false⟩
     ⟨none, some ("missing.png".toList, "x".toList), none, 1⟩
     "missing.png".toList "x".toList (Except.ok 1) (Except.ok ())
     (fun _ => "T".toList) [] (fun _ => false) false rfl rfl rfl⟩

/-- C7: listing recent outputs is sorted descending by modification time
and never returns more entries than the requested limit. -/
theorem list_recent_sorted_and_bounded (entries : List DirEntry) (limit : Nat) :
    List.Sorted mtimeDesc (listRecent entries limit) ∧
    (listRecent entries limit).length ≤ limit := by
  constructor
  · exact List.Pairwise.sublist (List.take_sublist limit _)
      (List.sorted_insertionSort mtimeDesc entries)
  · exact List.length_take_le limit _

theorem natDecimal_lt_ten (n : Nat) (h : n < 10) :
    natDecimal n = [Nat.digitChar n] := by
  unfold natDecimal Nat.toDigits Nat.toDigitsCore
  simp [Nat.div_eq_of_lt h, Nat.mod_eq_of_lt h]

theorem digitChar_inj_lt_ten (a b : Nat) (ha : a < 10) (hb : b < 10)
    (h : Nat.digitChar a = Nat.digitChar b) : a = b := by
  interval_cases a <;> interval_cases b <;> revert h <;> decide

theorem rev_getElem_four (a : List Char) (d : Char) :
    ((a ++ ('_' :: [d])) ++ ".jpg".toList).reverse[4]? = some d := by
  have hjpg : ".jpg".toList = ['.', 'j', 'p', 'g'] := rfl
  rw [hjpg]
  simp [List.reverse_append]

/-- C8: when more than one image is requested, every saved file ignores the
user-supplied filename and uses the timestamp pattern with a per-image
index suffix; and within one invocation (`num_images ≤ 8` per the CLI)
distinct image indices always yield distinct saved paths. -/
theorem custom_name_only_for_single_image (f : List Char) (nimg : Nat)
    (ts : Nat → List Char) (i j : Nat) (hn : 1 < nimg) (hi : i < nimg)
    (hj : j < nimg) (hmax : nimg ≤ 8)
    (heq : genOutputPath (some f) nimg ts i = genOutputPath (some f) nimg ts j) :
    genOutputPath (some f) nimg ts i =
      "nano_".toList ++ ts i ++ ('_' :: natDecimal (i + 1)) ++ ".jpg".toList ∧
    i = j := by
  have hne : ¬ (truthyStr (some f) = true ∧ nimg = 1) := by
    rintro ⟨-, h1⟩
    omega
  have hpath : ∀ m, m < nimg → genOutputPath (some f) nimg ts m =
      (("nano_".toList ++ ts m) ++ ('_' :: [Nat.digitChar (m + 1)])) ++
        ".jpg".toList := by
    intro m hm
    simp only [genOutputPath, if_neg hne, nanoTimestampPath, if_pos hn]
    rw [natDecimal_lt_ten (m + 1) (by omega)]
  constructor
  · simp only [genOutputPath, if_neg hne, nanoTimestampPath, if_pos hn]
  · rw [hpath i hi, hpath j hj] at heq
    have h2 := congrArg (fun l => l.reverse[4]?) heq
    simp only [rev_getElem_four] at h2
    have h3 := Option.some.inj h2
    have h4 := digitChar_inj_lt_ten (i + 1) (j + 1) (by omega) (by omega) h3
    omega

/-- C8 witness: the theorem at `num_images = 2`, indices `0` and `0`. -/
theorem custom_name_only_for_single_image_witness :
    (1 < 2 ∧ 0 < 2 ∧ 2 ≤ 8) ∧
    (genOutputPath (some "out".toList) 2 (fun _ => "20240101_000000".toList) 0 =
      "nano_".toList ++ "20240101_000000".toList ++ ('_' :: natDecimal 1) ++
        ".jpg".toList ∧
     (0 : Nat) = 0) :=
  ⟨⟨by decide, by decide, by decide⟩,
   custom_name_only_for_single_image "out".toList 2
     (fun _ => "20240101_000000".toList) 0 0 (by decide) (by decide) (by decide)
     (by decide) rfl⟩

/-- C9, counterexample: the claim says that whenever both a generation
prompt and an edit request are supplied only generation runs; but
`if args.prompt:` uses Python truthiness, so supplying an *empty* prompt
together with an edit request falls through to the edit branch and the
edit is performed, not the generation. -/
theorem empty_prompt_with_edit_runs_edit :
    dispatch (some []) (some ("photo.png".toList, "Add a crown".toList)) =
      Action.doEdit ∧
    Action.doEdit ≠ Action.doGenerate := by
  constructor <;> decide

/-- C9 (amended): when a non-empty generation prompt and an edit request
are both supplied, only generation is performed and the edit request is
silently ignored; a supplied empty prompt instead falls through to the
edit branch; and when neither is supplied, the program prints help and
exits with code 1. -/
theorem generation_branch_precedes_edit (p : List Char)
    (e : List Char × List Char) (fs : FSState) (args : Args)
    (api : Except Unit Nat) (editApi : Except Unit Unit) (ts : Nat → List Char)
    (tsE : List Char) (saveFail : Nat → Bool) (saveFailE : Bool) (hp : p ≠ [])
    (hnone : args.prompt = none) (henone : args.edit = none) :
    dispatch (some p) (some e) = Action.doGenerate ∧
    dispatch (some []) (some e) = Action.doEdit ∧
    runProgram fs args api editApi ts tsE saveFail saveFailE = (1, []) := by
  refine ⟨?_, rfl, ?_⟩
  · cases p with
    | nil => exact absurd rfl hp
    | cons c cs => rfl
  · unfold runProgram
    cases hcfg : loadConfig fs with
    | error ec => simp [loadConfig_error_code fs ec hcfg]
    | ok pid => simp [dispatch, hnone, henone, truthyStr]

/-- C9 witness: the amended claim at prompt `"cat"` plus an edit request,
and an argument vector supplying neither. -/
theorem generation_branch_precedes_edit_witness :
    "cat".toList ≠ [] ∧
    (dispatch (some "cat".toList) (some ("photo.png".toList, "x".toList)) =
      Action.doGenerate ∧
     dispatch (some []) (some ("photo.png".toList, "x".toList)) =
      Action.doEdit ∧
     runProgram ⟨some "proj".toList, none, fun _ => false⟩ ⟨none, none, none, 1⟩
       (Except.ok 1) (Except.ok ()) (fun _ => "T".toList) [] (fun _ => false)
       false = (1, [])) :=
  ⟨by decide,
   generation_branch_precedes_edit "cat".toList ("photo.png".toList, "x".toList)
     ⟨some "proj".toList, none, fun _ => false⟩ ⟨none, none, none, 1⟩
     (Except.ok 1) (Except.ok ()) (fun _ => "T".toList) [] (fun _ => false)
     false (by decide) rfl rfl⟩

/-- C10: the run of an invocation depends only on the command line, the
project file and the rest of the filesystem, never on the API-key file:
two filesystems that agree on everything except the key file's presence or
contents produce identical behaviour (`self.key_file` is assigned at line
37 but never read). -/
theorem key_file_never_read (fs1 fs2 : FSState) (args : Args)
    (api : Except Unit Nat) (editApi : Except Unit Unit) (ts : Nat → List Char)
    (tsE : List Char) (saveFail : Nat → Bool) (saveFailE : Bool)
    (hproj : fs1.projectFile = fs2.projectFile)
    (hex : fs1.fileExists = fs2.fileExists) :
    runProgram fs1 args api editApi ts tsE saveFail saveFailE =
      runProgram fs2 args api editApi ts tsE saveFail saveFailE := by
  obtain ⟨p1, k1, x1⟩ := fs1
  obtain ⟨p2, k2, x2⟩ := fs2
  dsimp only at hproj hex
  subst hproj
  subst hex
  rfl

/-- C10 witness: identical runs with the key file absent versus present
with arbitrary contents. -/
theorem key_file_never_read_witness :
    (FSState.mk (some "proj".toList) none fun _ => true).projectFile =
      (FSState.mk (some "proj".toList) (some "SECRET".toList) fun _ => true).projectFile ∧
    runProgram ⟨some "proj".toList, none, fun _ => true⟩
        ⟨some "cat".toList, none, none, 1⟩ (Except.ok 1) (Except.ok ())
        (fun _ => "T".toList) [] (fun _ => false) false =
      runProgram ⟨some "proj".toList, some "SECRET".toList, fun _ => true⟩
        ⟨some "cat".toList, none, none, 1⟩ (Except.ok 1) (Except.ok ())
        (fun _ => "T".toList) [] (fun _ => false) false :=
  ⟨rfl,
   key_file_never_read ⟨some "proj".toList, none, fun _ => true⟩
     ⟨some "proj".toList, some "SECRET".toList, fun _ => true⟩
     ⟨some "cat".toList, none, none, 1⟩ (Except.ok 1) (Except.ok ())
     (fun _ => "T".toList) [] (fun _ => false) false rfl rfl⟩

end NanoPro
